import Mathlib

/-!
Shallow embedding of `src/prefect/tasks/great_expectations/checkpoints.py`,
the `RunGreatExpectationsValidation.run` method.

The external Great Expectations engine and the Prefect artifact backend are
modelled as an oracle structure (`GEEngine`) of fallible calls; `run` threads
an explicit trace of the external calls it makes (`Event`) and returns either
a validation result, a raised `ValueError`, a raised `signals.FAIL`, or an
exception propagated unchanged from an external call (`RunErr.pyExc`).

Python truthiness of the optional arguments is modelled explicitly:
an absent value (`none`), an empty string, an empty list and an empty dict
are falsy; everything else is truthy.
-/

namespace GEValidation

/-- A Python exception raised by the external library, abstracted to its message. -/
abbrev PyErr := String

/-- A `batch_kwargs` dict, abstracted to its key/value pairs. -/
abbrev BatchKwargs := List (String × String)

/-- An `evaluation_parameters` dict, abstracted to its key/value pairs. -/
abbrev EvalParams := List (String × String)

/-- An expectation suite object returned by `context.get_expectation_suite`. -/
structure Suite where
  suiteIdent : String
deriving DecidableEq

/-- The second argument of `context.get_batch`: either a suite object (checkpoint
branch, line 250 of the source) or the raw `expectation_suite_name` argument
(simple branch, line 255). -/
inductive SuiteRef where
  | obj (s : Suite)
  | byName (n : Option String)
deriving DecidableEq

/-- One entry of a checkpoint's `"batches"` list: its `batch_kwargs` and its
`expectation_suite_names`. -/
structure CheckpointBatch where
  batch_kwargs : BatchKwargs
  expectation_suite_names : List String
deriving DecidableEq

/-- A checkpoint object returned by `context.get_checkpoint`. -/
structure GECheckpoint where
  batches : List CheckpointBatch
  validation_operator_name : String
deriving DecidableEq

/-- A loaded batch object returned by `context.get_batch`. -/
structure ValidationBatch where
  kwargs : Option BatchKwargs
  suite : SuiteRef
deriving DecidableEq

/-- A `ValidationOperatorResult`: its aggregated `success` flag plus an opaque
payload distinguishing result objects. -/
structure VOResult where
  success : Bool
  payload : Nat
deriving DecidableEq

/-- The external calls the task can make: the Great Expectations context and
renderers, and Prefect's `create_markdown_artifact`. Each call may raise. -/
structure GEEngine where
  dataContext : Option String → List (String × String) → Except PyErr Unit
  get_checkpoint : String → Except PyErr GECheckpoint
  get_expectation_suite : String → Except PyErr Suite
  get_batch : Option BatchKwargs → SuiteRef → Except PyErr ValidationBatch
  run_validation_operator :
    String → List ValidationBatch → Option String → Option EvalParams →
      Except PyErr VOResult
  render_validation_operator_result : Bool → VOResult → Except PyErr (List String)
  render_markdown_view : List String → Except PyErr (List String)
  create_markdown_artifact : String → Except PyErr Unit

/-- One external call made during `run`, recorded at the moment the call is
issued (whether or not it raises). -/
inductive Event where
  | contextConstructed (context_root_dir : Option String)
      (runtime_environment : List (String × String))
  | gotCheckpoint (n : String)
  | gotSuite (n : String)
  | gotBatch (kwargs : Option BatchKwargs) (suite : SuiteRef)
  | ranValidationOperator (op : String) (assets : List ValidationBatch)
      (run_name : Option String) (evaluation_parameters : Option EvalParams)
  | renderedValidationResult (run_info_at_end : Bool) (res : VOResult)
  | renderedMarkdownView (docs : List String)
  | createdMarkdownArtifact (md : String)
deriving DecidableEq

/-- How `run` terminates when it does not return a result: the mutual-exclusivity
`ValueError`, the `signals.FAIL` raised on a failing result (carrying the result
as payload), or an exception from an external call propagated unchanged. -/
inductive RunErr where
  | valueError (msg : String)
  | failSignal (res : VOResult)
  | pyExc (e : PyErr)
deriving DecidableEq

/-- The arguments of `RunGreatExpectationsValidation.run`. A provided
`DataContext` object is abstracted to the flag `context_provided` (a context
object is always truthy). -/
structure RunArgs where
  checkpoint_name : Option String
  context_provided : Bool
  assets_to_validate : Option (List ValidationBatch)
  batch_kwargs : Option BatchKwargs
  expectation_suite_name : Option String
  context_root_dir : Option String
  runtime_environment : Option (List (String × String))
  run_name : Option String
  run_info_at_end : Bool
  disable_markdown_artifact : Bool
  validation_operator : String
  evaluation_parameters : Option EvalParams
deriving DecidableEq

/-- Python truthiness of an optional string: `None` and `""` are falsy. -/
def truthyStr : Option String → Bool
  | none => false
  | some s => !s.isEmpty

/-- Python truthiness of an optional list or dict: `None` and empty are falsy. -/
def truthyList {α : Type} : Option (List α) → Bool
  | none => false
  | some l => !l.isEmpty

/-- The sum of lines 221-230 of the source:
`sum(bool(x) for x in [(expectation_suite_name and batch_kwargs), assets_to_validate, checkpoint_name])`. -/
def modeCount (a : RunArgs) : Nat :=
  (if truthyStr a.expectation_suite_name && truthyList a.batch_kwargs then 1 else 0)
    + (if truthyList a.assets_to_validate then 1 else 0)
    + (if truthyStr a.checkpoint_name then 1 else 0)

/-- The message of the mutual-exclusivity `ValueError` (lines 232-235). -/
def mutexErrorMsg : String :=
  "Exactly one of expectation_suite_name + batch_kwargs, assets_to_validate, or checkpoint_name is required to run validation."

/-- Lines 213-218: construct a `DataContext` unless one was provided. -/
def contextStep (eng : GEEngine) (a : RunArgs) : Except PyErr Unit × List Event :=
  if a.context_provided then (Except.ok (), [])
  else
    (eng.dataContext a.context_root_dir (a.runtime_environment.getD []),
     [Event.contextConstructed a.context_root_dir (a.runtime_environment.getD [])])

/-- The inner loop of the checkpoint branch (lines 248-251): for each suite name,
fetch the suite and load a batch for it against the given `batch_kwargs`. -/
def loadSuitesForBatch (eng : GEEngine) (kwargs : BatchKwargs) :
    List String → Except PyErr (List ValidationBatch) × List Event
  | [] => (Except.ok [], [])
  | n :: rest =>
    match eng.get_expectation_suite n with
    | Except.error e => (Except.error e, [Event.gotSuite n])
    | Except.ok suite =>
      match eng.get_batch (some kwargs) (SuiteRef.obj suite) with
      | Except.error e =>
        (Except.error e,
         [Event.gotSuite n, Event.gotBatch (some kwargs) (SuiteRef.obj suite)])
      | Except.ok b =>
        let r := loadSuitesForBatch eng kwargs rest
        (Except.map (fun bs => b :: bs) r.1,
         Event.gotSuite n :: Event.gotBatch (some kwargs) (SuiteRef.obj suite) :: r.2)

/-- The outer loop of the checkpoint branch (lines 246-251): iterate the
checkpoint's batches, accumulating the loaded batches in order. -/
def expandBatches (eng : GEEngine) :
    List CheckpointBatch → Except PyErr (List ValidationBatch) × List Event
  | [] => (Except.ok [], [])
  | cb :: rest =>
    let r1 := loadSuitesForBatch eng cb.batch_kwargs cb.expectation_suite_names
    match r1.1 with
    | Except.error e => (Except.error e, r1.2)
    | Except.ok bs =>
      let r2 := expandBatches eng rest
      (Except.map (fun more => bs ++ more) r2.1, r1.2 ++ r2.2)

/-- Lines 241-256: resolve `assets_to_validate` and the operator to use. When a
truthy asset list was passed it is used as-is with the passed operator; when a
checkpoint name was passed the checkpoint is expanded and its
`validation_operator_name` replaces the passed operator; otherwise a single
batch is loaded from `batch_kwargs` and `expectation_suite_name`. -/
def resolveAssets (eng : GEEngine) (a : RunArgs) :
    Except PyErr (List ValidationBatch × String) × List Event :=
  if truthyList a.assets_to_validate then
    (Except.ok (a.assets_to_validate.getD [], a.validation_operator), [])
  else if truthyStr a.checkpoint_name then
    let cpn := a.checkpoint_name.getD ""
    match eng.get_checkpoint cpn with
    | Except.error e => (Except.error e, [Event.gotCheckpoint cpn])
    | Except.ok cp =>
      let r := expandBatches eng cp.batches
      match r.1 with
      | Except.error e => (Except.error e, Event.gotCheckpoint cpn :: r.2)
      | Except.ok bs =>
        (Except.ok (bs, cp.validation_operator_name), Event.gotCheckpoint cpn :: r.2)
  else
    match eng.get_batch a.batch_kwargs (SuiteRef.byName a.expectation_suite_name) with
    | Except.error e =>
      (Except.error e,
       [Event.gotBatch a.batch_kwargs (SuiteRef.byName a.expectation_suite_name)])
    | Except.ok b =>
      (Except.ok ([b], a.validation_operator),
       [Event.gotBatch a.batch_kwargs (SuiteRef.byName a.expectation_suite_name)])

/-- Lines 266-285: the markdown-artifact block. Line 268 of the source reassigns
`run_info_at_end` to `True` before constructing the renderer, so the
`run_info_at_end` argument in `a` is never consulted here. -/
def artifactStep (eng : GEEngine) (a : RunArgs) (results : VOResult) :
    Except PyErr Unit × List Event :=
  if a.disable_markdown_artifact then (Except.ok (), [])
  else
    let run_info_at_end := true
    match eng.render_validation_operator_result run_info_at_end results with
    | Except.error e => (Except.error e, [Event.renderedValidationResult run_info_at_end results])
    | Except.ok docs =>
      match eng.render_markdown_view docs with
      | Except.error e =>
        (Except.error e,
         [Event.renderedValidationResult run_info_at_end results,
          Event.renderedMarkdownView docs])
      | Except.ok pieces =>
        let markdown_artifact := String.intercalate " " pieces
        match eng.create_markdown_artifact markdown_artifact with
        | Except.error e =>
          (Except.error e,
           [Event.renderedValidationResult run_info_at_end results,
            Event.renderedMarkdownView docs,
            Event.createdMarkdownArtifact markdown_artifact])
        | Except.ok _ =>
          (Except.ok (),
           [Event.renderedValidationResult run_info_at_end results,
            Event.renderedMarkdownView docs,
            Event.createdMarkdownArtifact markdown_artifact])

/-- The body of `RunGreatExpectationsValidation.run` (lines 210-290). `task_slug`
is `prefect.context.get("task_slug")`; the run id dict of line 262 is abstracted
to the value of its single `"run_name"` key. -/
def run (eng : GEEngine) (task_slug : Option String) (a : RunArgs) :
    Except RunErr VOResult × List Event :=
  let c := contextStep eng a
  match c.1 with
  | Except.error e => (Except.error (RunErr.pyExc e), c.2)
  | Except.ok _ =>
    if modeCount a ≠ 1 then
      (Except.error (RunErr.valueError mutexErrorMsg), c.2)
    else
      let r := resolveAssets eng a
      match r.1 with
      | Except.error e => (Except.error (RunErr.pyExc e), c.2 ++ r.2)
      | Except.ok (assets, op) =>
        let rn := if truthyStr a.run_name then a.run_name else task_slug
        let voEv := [Event.ranValidationOperator op assets rn a.evaluation_parameters]
        match eng.run_validation_operator op assets rn a.evaluation_parameters with
        | Except.error e => (Except.error (RunErr.pyExc e), c.2 ++ r.2 ++ voEv)
        | Except.ok results =>
          let art := artifactStep eng a results
          match art.1 with
          | Except.error e => (Except.error (RunErr.pyExc e), c.2 ++ r.2 ++ voEv ++ art.2)
          | Except.ok _ =>
            if results.success = false then
              (Except.error (RunErr.failSignal results), c.2 ++ r.2 ++ voEv ++ art.2)
            else
              (Except.ok results, c.2 ++ r.2 ++ voEv ++ art.2)

/-! ## Concrete fixtures used by witnesses and counterexamples -/

/-- A successful validation result. -/
def res₀ : VOResult := { success := true, payload := 7 }

/-- A failing validation result. -/
def resFail : VOResult := { success := false, payload := 3 }

/-- A two-batch checkpoint: the first batch carries two suite names, the second one. -/
def cp₀ : GECheckpoint :=
  { batches :=
      [{ batch_kwargs := [("datasource", "d")], expectation_suite_names := ["s1", "s2"] },
       { batch_kwargs := [("k", "v")], expectation_suite_names := ["s3"] }],
    validation_operator_name := "cp_operator" }

/-- An engine on which every call succeeds and validation passes. -/
def engOK : GEEngine :=
  { dataContext := fun _ _ => Except.ok (),
    get_checkpoint := fun _ => Except.ok cp₀,
    get_expectation_suite := fun n => Except.ok ⟨n⟩,
    get_batch := fun k r => Except.ok { kwargs := k, suite := r },
    run_validation_operator := fun _ _ _ _ => Except.ok res₀,
    render_validation_operator_result := fun _ _ => Except.ok ["docA", "docB"],
    render_markdown_view := fun docs => Except.ok docs,
    create_markdown_artifact := fun _ => Except.ok () }

/-- Like `engOK` but the validation operator reports overall failure. -/
def engFail : GEEngine :=
  { engOK with run_validation_operator := fun _ _ _ _ => Except.ok resFail }

/-- Like `engOK` but the validation operator raises. -/
def engBoom : GEEngine :=
  { engOK with run_validation_operator := fun _ _ _ _ => Except.error "boom" }

/-- Arguments with every optional input absent and no provided context. -/
def baseArgs : RunArgs :=
  { checkpoint_name := none,
    context_provided := false,
    assets_to_validate := none,
    batch_kwargs := none,
    expectation_suite_name := none,
    context_root_dir := none,
    runtime_environment := none,
    run_name := none,
    run_info_at_end := true,
    disable_markdown_artifact := false,
    validation_operator := "action_list_operator",
    evaluation_parameters := none }

/-- No input mode supplied, but a context object provided directly. -/
def argsCtxProvided : RunArgs := { baseArgs with context_provided := true }

/-- The suite + batch_kwargs input mode. -/
def argsSB : RunArgs :=
  { baseArgs with
    expectation_suite_name := some "suiteX",
    batch_kwargs := some [("datasource", "d")] }

/-- The checkpoint input mode. -/
def argsCP : RunArgs := { baseArgs with checkpoint_name := some "cp1" }

/-- The suite + batch mode with the run-info toggle switched off. -/
def argsNoRunInfo : RunArgs := { argsSB with run_info_at_end := false }

/-- The suite + batch mode with an empty-string run name supplied. -/
def argsEmptyRunName : RunArgs := { argsSB with run_name := some "" }

/-- Only an expectation suite name supplied, without batch_kwargs. -/
def argsSuiteOnly : RunArgs := { baseArgs with expectation_suite_name := some "suiteX" }

/-- The suite + batch mode with the markdown artifact disabled. -/
def argsDisabled : RunArgs := { argsSB with disable_markdown_artifact := true }

end GEValidation

deriving instance DecidableEq for Except

namespace GEValidation

/-! ## Helper lemmas -/

theorem run_eq_valueError_of_modeCount_ne_one (eng : GEEngine) (slug : Option String)
    (a : RunArgs) (hctx : (contextStep eng a).1 = Except.ok ()) (hmode : modeCount a ≠ 1) :
    run eng slug a = (Except.error (RunErr.valueError mutexErrorMsg), (contextStep eng a).2) := by
  simp only [run, hctx, if_pos hmode]

theorem run_ne_valueError_of_modeCount_eq_one (eng : GEEngine) (slug : Option String)
    (a : RunArgs) (hmode : modeCount a = 1) :
    ∀ m, (run eng slug a).1 ≠ Except.error (RunErr.valueError m) := by
  intro m
  cases h1 : (contextStep eng a).1 with
  | error e => simp [run, h1]
  | ok u =>
    cases h2 : (resolveAssets eng a).1 with
    | error e => simp [run, h1, h2, hmode]
    | ok p =>
      obtain ⟨assets, op⟩ := p
      cases h3 : eng.run_validation_operator op assets
          (if truthyStr a.run_name then a.run_name else slug) a.evaluation_parameters with
      | error e => simp [run, h1, h2, h3, hmode]
      | ok results =>
        cases h4 : (artifactStep eng a results).1 with
        | error e => simp [run, h1, h2, h3, h4, hmode]
        | ok v =>
          cases h5 : results.success <;>
            simp [run, h1, h2, h3, h4, h5, hmode]

theorem contextStep_events (eng : GEEngine) (a : RunArgs) :
    ∀ ev ∈ (contextStep eng a).2, ∃ rt env, ev = Event.contextConstructed rt env := by
  intro ev hev
  cases hc : a.context_provided <;> simp [contextStep, hc] at hev
  exact ⟨_, _, hev⟩

theorem createdMarkdownArtifact_notMem_contextStep (eng : GEEngine) (a : RunArgs)
    (md : String) : Event.createdMarkdownArtifact md ∉ (contextStep eng a).2 := by
  intro hmem
  obtain ⟨rt, env, h⟩ := contextStep_events eng a _ hmem
  simp at h

theorem createdMarkdownArtifact_notMem_loadSuites (eng : GEEngine) (k : BatchKwargs)
    (md : String) :
    ∀ ns, Event.createdMarkdownArtifact md ∉ (loadSuitesForBatch eng k ns).2 := by
  intro ns
  induction ns with
  | nil => simp [loadSuitesForBatch]
  | cons n rest ih =>
    cases hs : eng.get_expectation_suite n with
    | error e => simp [loadSuitesForBatch, hs]
    | ok suite =>
      cases hb : eng.get_batch (some k) (SuiteRef.obj suite) with
      | error e => simp [loadSuitesForBatch, hs, hb]
      | ok b => simp [loadSuitesForBatch, hs, hb, ih]

theorem createdMarkdownArtifact_notMem_expandBatches (eng : GEEngine) (md : String) :
    ∀ l, Event.createdMarkdownArtifact md ∉ (expandBatches eng l).2 := by
  intro l
  induction l with
  | nil => simp [expandBatches]
  | cons cb rest ih =>
    cases h1 : (loadSuitesForBatch eng cb.batch_kwargs cb.expectation_suite_names).1 with
    | error e => simp [expandBatches, h1, createdMarkdownArtifact_notMem_loadSuites]
    | ok bs => simp [expandBatches, h1, ih, createdMarkdownArtifact_notMem_loadSuites]

theorem createdMarkdownArtifact_notMem_resolveAssets (eng : GEEngine) (a : RunArgs)
    (md : String) : Event.createdMarkdownArtifact md ∉ (resolveAssets eng a).2 := by
  cases h1 : truthyList a.assets_to_validate with
  | true => simp [resolveAssets, h1]
  | false =>
    cases h2 : truthyStr a.checkpoint_name with
    | false =>
      cases h3 : eng.get_batch a.batch_kwargs (SuiteRef.byName a.expectation_suite_name) with
      | error e => simp [resolveAssets, h1, h2, h3]
      | ok b => simp [resolveAssets, h1, h2, h3]
    | true =>
      cases h3 : eng.get_checkpoint (a.checkpoint_name.getD "") with
      | error e => simp [resolveAssets, h1, h2, h3]
      | ok cp =>
        cases h4 : (expandBatches eng cp.batches).1 with
        | error e =>
          simp [resolveAssets, h1, h2, h3, h4, createdMarkdownArtifact_notMem_expandBatches]
        | ok bs =>
          simp [resolveAssets, h1, h2, h3, h4, createdMarkdownArtifact_notMem_expandBatches]

theorem loadSuitesForBatch_total (eng : GEEngine) (fsuite : String → Suite)
    (fbatch : Option BatchKwargs → SuiteRef → ValidationBatch)
    (hsuite : ∀ n, eng.get_expectation_suite n = Except.ok (fsuite n))
    (hbatch : ∀ k r, eng.get_batch k r = Except.ok (fbatch k r))
    (k : BatchKwargs) :
    ∀ ns, (loadSuitesForBatch eng k ns).1 =
      Except.ok (ns.map fun n => fbatch (some k) (SuiteRef.obj (fsuite n))) := by
  intro ns
  induction ns with
  | nil => simp [loadSuitesForBatch]
  | cons n rest ih => simp [loadSuitesForBatch, hsuite, hbatch, ih, Except.map]

theorem expandBatches_total (eng : GEEngine) (fsuite : String → Suite)
    (fbatch : Option BatchKwargs → SuiteRef → ValidationBatch)
    (hsuite : ∀ n, eng.get_expectation_suite n = Except.ok (fsuite n))
    (hbatch : ∀ k r, eng.get_batch k r = Except.ok (fbatch k r)) :
    ∀ l, (expandBatches eng l).1 =
      Except.ok (l.flatMap fun cb => cb.expectation_suite_names.map fun n =>
        fbatch (some cb.batch_kwargs) (SuiteRef.obj (fsuite n))) := by
  intro l
  induction l with
  | nil => simp [expandBatches]
  | cons cb rest ih =>
    simp [expandBatches, loadSuitesForBatch_total eng fsuite fbatch hsuite hbatch, ih,
      Except.map]

theorem run_eq_of_stages (eng : GEEngine) (slug : Option String) (a : RunArgs)
    (assets : List ValidationBatch) (op : String) (res : VOResult)
    (hctx : (contextStep eng a).1 = Except.ok ())
    (hmode : modeCount a = 1)
    (hres : (resolveAssets eng a).1 = Except.ok (assets, op))
    (hvo : eng.run_validation_operator op assets
      (if truthyStr a.run_name then a.run_name else slug) a.evaluation_parameters
      = Except.ok res)
    (hart : (artifactStep eng a res).1 = Except.ok ()) :
    run eng slug a =
      ((if res.success = false then Except.error (RunErr.failSignal res) else Except.ok res),
       (contextStep eng a).2 ++ (resolveAssets eng a).2 ++
         [Event.ranValidationOperator op assets
           (if truthyStr a.run_name then a.run_name else slug) a.evaluation_parameters] ++
         (artifactStep eng a res).2) := by
  cases h5 : res.success <;> simp [run, hctx, hmode, hres, hvo, hart, h5]

theorem run_pyExc_of_contextStep_error (eng : GEEngine) (slug : Option String)
    (a : RunArgs) (e : PyErr) (h : (contextStep eng a).1 = Except.error e) :
    (run eng slug a).1 = Except.error (RunErr.pyExc e) := by
  simp [run, h]

theorem run_pyExc_of_resolve_error (eng : GEEngine) (slug : Option String) (a : RunArgs)
    (e : PyErr) (hctx : (contextStep eng a).1 = Except.ok ()) (hmode : modeCount a = 1)
    (h : (resolveAssets eng a).1 = Except.error e) :
    (run eng slug a).1 = Except.error (RunErr.pyExc e) := by
  simp [run, hctx, hmode, h]

theorem run_pyExc_of_operator_error (eng : GEEngine) (slug : Option String) (a : RunArgs)
    (assets : List ValidationBatch) (op : String) (e : PyErr)
    (hctx : (contextStep eng a).1 = Except.ok ()) (hmode : modeCount a = 1)
    (hres : (resolveAssets eng a).1 = Except.ok (assets, op))
    (h : eng.run_validation_operator op assets
      (if truthyStr a.run_name then a.run_name else slug) a.evaluation_parameters
      = Except.error e) :
    (run eng slug a).1 = Except.error (RunErr.pyExc e) := by
  simp [run, hctx, hmode, hres, h]

theorem run_pyExc_of_artifact_error (eng : GEEngine) (slug : Option String) (a : RunArgs)
    (assets : List ValidationBatch) (op : String) (res : VOResult) (e : PyErr)
    (hctx : (contextStep eng a).1 = Except.ok ()) (hmode : modeCount a = 1)
    (hres : (resolveAssets eng a).1 = Except.ok (assets, op))
    (hvo : eng.run_validation_operator op assets
      (if truthyStr a.run_name then a.run_name else slug) a.evaluation_parameters
      = Except.ok res)
    (h : (artifactStep eng a res).1 = Except.error e) :
    (run eng slug a).1 = Except.error (RunErr.pyExc e) := by
  simp [run, hctx, hmode, hres, hvo, h]

theorem truthyStr_some_of_ne (s : String) (h : s ≠ "") : truthyStr (some s) = true := by
  have hb : s.isEmpty = false := by
    cases hb : s.isEmpty
    · rfl
    · exact absurd ((String.isEmpty_iff s).mp hb) h
  simp [truthyStr, hb]

theorem resolveAssets_checkpoint (eng : GEEngine) (a : RunArgs) (cpn : String)
    (cp : GECheckpoint) (fsuite : String → Suite)
    (fbatch : Option BatchKwargs → SuiteRef → ValidationBatch)
    (hassets : truthyList a.assets_to_validate = false)
    (hcpn : a.checkpoint_name = some cpn) (hne : cpn ≠ "")
    (hget : eng.get_checkpoint cpn = Except.ok cp)
    (hsuite : ∀ n, eng.get_expectation_suite n = Except.ok (fsuite n))
    (hbatch : ∀ k r, eng.get_batch k r = Except.ok (fbatch k r)) :
    (resolveAssets eng a).1 = Except.ok
      (cp.batches.flatMap fun cb => cb.expectation_suite_names.map fun n =>
         fbatch (some cb.batch_kwargs) (SuiteRef.obj (fsuite n)),
       cp.validation_operator_name) := by
  have htr : truthyStr a.checkpoint_name = true := by
    rw [hcpn]; exact truthyStr_some_of_ne cpn hne
  have hgetD : a.checkpoint_name.getD "" = cpn := by rw [hcpn]; rfl
  simp [resolveAssets, hassets, htr, hgetD, hget,
    expandBatches_total eng fsuite fbatch hsuite hbatch]

theorem ranValidationOperator_mem_run (eng : GEEngine) (slug : Option String)
    (a : RunArgs) (assets : List ValidationBatch) (op : String)
    (hctx : (contextStep eng a).1 = Except.ok ())
    (hmode : modeCount a = 1)
    (hres : (resolveAssets eng a).1 = Except.ok (assets, op)) :
    Event.ranValidationOperator op assets
      (if truthyStr a.run_name then a.run_name else slug) a.evaluation_parameters
      ∈ (run eng slug a).2 := by
  cases h3 : eng.run_validation_operator op assets
      (if truthyStr a.run_name then a.run_name else slug) a.evaluation_parameters with
  | error e => simp [run, hctx, hmode, hres, h3, List.mem_append]
  | ok results =>
    cases h4 : (artifactStep eng a results).1 with
    | error e => simp [run, hctx, hmode, hres, h3, h4, List.mem_append]
    | ok v =>
      cases h5 : results.success <;>
        simp [run, hctx, hmode, hres, h3, h4, h5, List.mem_append]

end GEValidation

namespace GEValidation

/-- C1 counterexample: with no input mode supplied and no context provided, the
invocation is rejected with the mutual-exclusivity ValueError, yet the
validation context has already been constructed when the rejection happens —
the construction event is in the trace of the rejected call. -/
theorem C1_counterexample_context_constructed_before_reject :
    modeCount baseArgs = 0 ∧
      (run engOK none baseArgs).1 = Except.error (RunErr.valueError mutexErrorMsg) ∧
      Event.contextConstructed none [] ∈ (run engOK none baseArgs).2 := by
  refine ⟨by decide, by decide, by decide⟩

/-- C1 (amended): when zero or more than one of the three input modes is
supplied and the context step succeeds, the invocation is rejected with the
mutual-exclusivity ValueError before any further engine contact: the only
events that can precede the rejection are context constructions. -/
theorem C1_amended_reject_before_engine_contact (eng : GEEngine) (slug : Option String)
    (a : RunArgs) (hctx : (contextStep eng a).1 = Except.ok ())
    (hmode : modeCount a ≠ 1) :
    (run eng slug a).1 = Except.error (RunErr.valueError mutexErrorMsg) ∧
      ∀ ev ∈ (run eng slug a).2, ∃ rt env, ev = Event.contextConstructed rt env := by
  have h := run_eq_valueError_of_modeCount_ne_one eng slug a hctx hmode
  constructor
  · rw [h]
  · intro ev hev
    rw [h] at hev
    exact contextStep_events eng a ev hev

/-- Witness for the amended C1: a concrete over-supplied invocation is rejected. -/
theorem C1_amended_witness :
    modeCount argsCtxProvided ≠ 1 ∧
      (run engOK none argsCtxProvided).1 = Except.error (RunErr.valueError mutexErrorMsg) :=
  ⟨by decide,
   (C1_amended_reject_before_engine_contact engOK none argsCtxProvided rfl (by decide)).1⟩

/-- C2 (code bug): with artifact rendering enabled and run_info_at_end supplied
as False, the renderer is nevertheless invoked with run_info_at_end = True —
line 268 of the source overwrites the argument unconditionally — so run
metadata is always included, contradicting the documented toggle. -/
theorem C2_run_info_at_end_is_ignored :
    argsNoRunInfo.run_info_at_end = false ∧
      Event.renderedValidationResult true res₀ ∈ (run engOK (some "slug1") argsNoRunInfo).2 ∧
      ((run engOK (some "slug1") argsNoRunInfo).2.all fun ev =>
        match ev with
        | Event.renderedValidationResult b _ => b
        | _ => true) = true := by
  refine ⟨rfl, by decide, by decide⟩

/-- C3: when exactly a checkpoint name is supplied (the asset list is not, and
the suite+batch pair is not both truthy), the checkpoint is expanded into one
loaded batch per declared (batch_kwargs, expectation-suite-name) pairing —
outer iteration over the checkpoint's batches, inner over each batch's
expectation_suite_names — and the operator executed is the checkpoint's
declared validation_operator_name, whatever validation_operator was passed. -/
theorem C3_checkpoint_expansion (eng : GEEngine) (slug : Option String) (a : RunArgs)
    (cpn : String) (cp : GECheckpoint) (fsuite : String → Suite)
    (fbatch : Option BatchKwargs → SuiteRef → ValidationBatch)
    (hctx : (contextStep eng a).1 = Except.ok ())
    (hassets : truthyList a.assets_to_validate = false)
    (hsb : (truthyStr a.expectation_suite_name && truthyList a.batch_kwargs) = false)
    (hcpn : a.checkpoint_name = some cpn) (hne : cpn ≠ "")
    (hget : eng.get_checkpoint cpn = Except.ok cp)
    (hsuite : ∀ n, eng.get_expectation_suite n = Except.ok (fsuite n))
    (hbatch : ∀ k r, eng.get_batch k r = Except.ok (fbatch k r)) :
    Event.ranValidationOperator cp.validation_operator_name
      (cp.batches.flatMap fun cb => cb.expectation_suite_names.map fun n =>
        fbatch (some cb.batch_kwargs) (SuiteRef.obj (fsuite n)))
      (if truthyStr a.run_name then a.run_name else slug) a.evaluation_parameters
      ∈ (run eng slug a).2 := by
  have htr : truthyStr a.checkpoint_name = true := by
    rw [hcpn]; exact truthyStr_some_of_ne cpn hne
  have hmode : modeCount a = 1 := by simp [modeCount, hassets, hsb, htr]
  exact ranValidationOperator_mem_run eng slug a _ _ hctx hmode
    (resolveAssets_checkpoint eng a cpn cp fsuite fbatch hassets hcpn hne hget hsuite hbatch)

/-- Witness for C3: the fixture checkpoint expands to its three suite pairings
and its operator name is used. -/
theorem C3_witness :
    Event.ranValidationOperator "cp_operator"
      [⟨some [("datasource", "d")], SuiteRef.obj ⟨"s1"⟩⟩,
       ⟨some [("datasource", "d")], SuiteRef.obj ⟨"s2"⟩⟩,
       ⟨some [("k", "v")], SuiteRef.obj ⟨"s3"⟩⟩]
      none none ∈ (run engOK none argsCP).2 :=
  C3_checkpoint_expansion engOK none argsCP "cp1" cp₀ (fun n => ⟨n⟩)
    (fun k r => ⟨k, r⟩) rfl (by decide) (by decide) rfl (by decide) rfl
    (fun _ => rfl) (fun _ _ => rfl)

end GEValidation

namespace GEValidation

/-- C4: when the engine's aggregated result reports failure, the invocation
raises signals.FAIL carrying exactly that result object. -/
theorem C4_failing_result_raises_fail_signal (eng : GEEngine) (slug : Option String)
    (a : RunArgs) (assets : List ValidationBatch) (op : String) (res : VOResult)
    (hctx : (contextStep eng a).1 = Except.ok ())
    (hmode : modeCount a = 1)
    (hres : (resolveAssets eng a).1 = Except.ok (assets, op))
    (hvo : eng.run_validation_operator op assets
      (if truthyStr a.run_name then a.run_name else slug) a.evaluation_parameters
      = Except.ok res)
    (hart : (artifactStep eng a res).1 = Except.ok ())
    (hfail : res.success = false) :
    (run eng slug a).1 = Except.error (RunErr.failSignal res) := by
  rw [run_eq_of_stages eng slug a assets op res hctx hmode hres hvo hart]
  simp [hfail]

/-- Witness for C4 at a concrete failing engine. -/
theorem C4_witness :
    resFail.success = false ∧
      (run engFail none argsSB).1 = Except.error (RunErr.failSignal resFail) :=
  ⟨rfl,
   C4_failing_result_raises_fail_signal engFail none argsSB
     [⟨some [("datasource", "d")], SuiteRef.byName (some "suiteX")⟩]
     "action_list_operator" resFail rfl (by decide) (by decide) rfl rfl rfl⟩

/-- C5: when the engine's aggregated result reports success (and the artifact
step raises nothing), the invocation returns that result object unchanged and
raises neither an exception nor a failure signal. -/
theorem C5_successful_result_returned_unchanged (eng : GEEngine) (slug : Option String)
    (a : RunArgs) (assets : List ValidationBatch) (op : String) (res : VOResult)
    (hctx : (contextStep eng a).1 = Except.ok ())
    (hmode : modeCount a = 1)
    (hres : (resolveAssets eng a).1 = Except.ok (assets, op))
    (hvo : eng.run_validation_operator op assets
      (if truthyStr a.run_name then a.run_name else slug) a.evaluation_parameters
      = Except.ok res)
    (hart : (artifactStep eng a res).1 = Except.ok ())
    (hsucc : res.success = true) :
    (run eng slug a).1 = Except.ok res := by
  rw [run_eq_of_stages eng slug a assets op res hctx hmode hres hvo hart]
  simp [hsucc]

/-- Witness for C5 at a concrete succeeding engine. -/
theorem C5_witness :
    res₀.success = true ∧ (run engOK none argsSB).1 = Except.ok res₀ :=
  ⟨rfl,
   C5_successful_result_returned_unchanged engOK none argsSB
     [⟨some [("datasource", "d")], SuiteRef.byName (some "suiteX")⟩]
     "action_list_operator" res₀ rfl (by decide) (by decide) rfl rfl rfl⟩

/-- C6: with disable_markdown_artifact set, no create_markdown_artifact call
occurs on any path, whatever the engine does and however the run terminates. -/
theorem C6_no_artifact_publish_when_disabled (eng : GEEngine) (slug : Option String)
    (a : RunArgs) (hd : a.disable_markdown_artifact = true) (md : String) :
    Event.createdMarkdownArtifact md ∉ (run eng slug a).2 := by
  have hart : ∀ res, artifactStep eng a res = (Except.ok (), []) := fun res => by
    simp [artifactStep, hd]
  cases h1 : (contextStep eng a).1 with
  | error e =>
    simp only [run, h1]
    exact createdMarkdownArtifact_notMem_contextStep eng a md
  | ok u =>
    by_cases hmode : modeCount a = 1
    · cases h2 : (resolveAssets eng a).1 with
      | error e =>
        simp [run, h1, h2, hmode, List.mem_append,
          createdMarkdownArtifact_notMem_contextStep,
          createdMarkdownArtifact_notMem_resolveAssets]
      | ok p =>
        obtain ⟨assets, op⟩ := p
        cases h3 : eng.run_validation_operator op assets
            (if truthyStr a.run_name then a.run_name else slug) a.evaluation_parameters with
        | error e =>
          simp [run, h1, h2, h3, hmode, List.mem_append,
            createdMarkdownArtifact_notMem_contextStep,
            createdMarkdownArtifact_notMem_resolveAssets]
        | ok results =>
          cases h5 : results.success <;>
            simp [run, h1, h2, h3, h5, hmode, hart, List.mem_append,
              createdMarkdownArtifact_notMem_contextStep,
              createdMarkdownArtifact_notMem_resolveAssets]
    · simp only [run, h1, if_pos hmode]
      exact createdMarkdownArtifact_notMem_contextStep eng a md

/-- Witness for C6: the disabled fixture publishes nothing even on failure. -/
theorem C6_witness :
    argsDisabled.disable_markdown_artifact = true ∧
      Event.createdMarkdownArtifact "docA docB" ∉ (run engFail none argsDisabled).2 :=
  ⟨rfl, C6_no_artifact_publish_when_disabled engFail none argsDisabled rfl "docA docB"⟩

end GEValidation

namespace GEValidation

/-- C7 counterexample: with run_name supplied as the empty string, the run
identifier passed to the validation operator is the task slug, not the supplied
run_name — `run_name or task_slug` discards a falsy run_name. -/
theorem C7_counterexample_empty_run_name :
    argsEmptyRunName.run_name = some "" ∧
      Event.ranValidationOperator "action_list_operator"
        [⟨some [("datasource", "d")], SuiteRef.byName (some "suiteX")⟩]
        (some "slug1") none ∈ (run engOK (some "slug1") argsEmptyRunName).2 ∧
      ((run engOK (some "slug1") argsEmptyRunName).2.all fun ev =>
        match ev with
        | Event.ranValidationOperator _ _ rn _ => rn == some "slug1"
        | _ => true) = true := by
  refine ⟨rfl, by decide, by decide⟩

/-- C7 (amended): the run identifier passed to the validation-operator
execution is the supplied run_name when it is a non-empty string, and otherwise
— run_name absent or empty — the task slug from the workflow context. -/
theorem C7_amended_run_identifier (eng : GEEngine) (slug : Option String) (a : RunArgs)
    (assets : List ValidationBatch) (op : String)
    (hctx : (contextStep eng a).1 = Except.ok ())
    (hmode : modeCount a = 1)
    (hres : (resolveAssets eng a).1 = Except.ok (assets, op)) :
    Event.ranValidationOperator op assets
      (match a.run_name with
       | some s => if s = "" then slug else some s
       | none => slug) a.evaluation_parameters ∈ (run eng slug a).2 := by
  have hrn : (match a.run_name with
      | some s => if s = "" then slug else some s
      | none => slug) = (if truthyStr a.run_name then a.run_name else slug) := by
    cases hs : a.run_name with
    | none => simp [truthyStr]
    | some s =>
      by_cases he : s = ""
      · have hb : ("".isEmpty : Bool) = true := rfl
        simp [truthyStr, he, hb]
      · simp [he, truthyStr_some_of_ne s he]
  rw [hrn]
  exact ranValidationOperator_mem_run eng slug a assets op hctx hmode hres

/-- Witness for the amended C7: absent run_name falls back to the task slug. -/
theorem C7_amended_witness :
    Event.ranValidationOperator "action_list_operator"
      [⟨some [("datasource", "d")], SuiteRef.byName (some "suiteX")⟩]
      (some "slug1") none ∈ (run engOK (some "slug1") argsSB).2 :=
  C7_amended_run_identifier engOK (some "slug1") argsSB
    [⟨some [("datasource", "d")], SuiteRef.byName (some "suiteX")⟩]
    "action_list_operator" rfl (by decide) (by decide)

/-- C8: the run method installs no exception handler: an exception raised by
any external call — context construction, checkpoint or suite or batch lookup,
validation-operator execution, rendering, artifact publication — reaches the
caller unchanged. -/
theorem C8_exceptions_propagate_unchanged (eng : GEEngine) (slug : Option String)
    (a : RunArgs) :
    (∀ e, (contextStep eng a).1 = Except.error e →
      (run eng slug a).1 = Except.error (RunErr.pyExc e)) ∧
    (∀ e, (contextStep eng a).1 = Except.ok () → modeCount a = 1 →
      (resolveAssets eng a).1 = Except.error e →
      (run eng slug a).1 = Except.error (RunErr.pyExc e)) ∧
    (∀ e assets op, (contextStep eng a).1 = Except.ok () → modeCount a = 1 →
      (resolveAssets eng a).1 = Except.ok (assets, op) →
      eng.run_validation_operator op assets
        (if truthyStr a.run_name then a.run_name else slug) a.evaluation_parameters
        = Except.error e →
      (run eng slug a).1 = Except.error (RunErr.pyExc e)) ∧
    (∀ e assets op res, (contextStep eng a).1 = Except.ok () → modeCount a = 1 →
      (resolveAssets eng a).1 = Except.ok (assets, op) →
      eng.run_validation_operator op assets
        (if truthyStr a.run_name then a.run_name else slug) a.evaluation_parameters
        = Except.ok res →
      (artifactStep eng a res).1 = Except.error e →
      (run eng slug a).1 = Except.error (RunErr.pyExc e)) :=
  ⟨fun e h => run_pyExc_of_contextStep_error eng slug a e h,
   fun e h1 h2 h3 => run_pyExc_of_resolve_error eng slug a e h1 h2 h3,
   fun e assets op h1 h2 h3 h4 =>
     run_pyExc_of_operator_error eng slug a assets op e h1 h2 h3 h4,
   fun e assets op res h1 h2 h3 h4 h5 =>
     run_pyExc_of_artifact_error eng slug a assets op res e h1 h2 h3 h4 h5⟩

/-- Witness for C8: a raising validation operator propagates its exception. -/
theorem C8_witness :
    (run engBoom none argsSB).1 = Except.error (RunErr.pyExc "boom") :=
  (C8_exceptions_propagate_unchanged engBoom none argsSB).2.2.1 "boom"
    [⟨some [("datasource", "d")], SuiteRef.byName (some "suiteX")⟩]
    "action_list_operator" rfl (by decide) (by decide) rfl

end GEValidation

namespace GEValidation

/-- C9: the suite+batch mode counts as supplied only when both
expectation_suite_name and batch_kwargs are truthy. A lone
expectation_suite_name (or lone batch_kwargs) with no other mode is rejected
with the mutual-exclusivity ValueError; a lone expectation_suite_name next to a
checkpoint name is not a second mode, so no mutual-exclusivity ValueError is
raised; an empty asset list or an empty batch_kwargs dict is falsy and counts
as not supplied. -/
theorem C9_mode_truthiness (eng : GEEngine) (slug : Option String) :
    (∀ a, truthyStr a.expectation_suite_name = true → truthyList a.batch_kwargs = false →
      truthyList a.assets_to_validate = false → truthyStr a.checkpoint_name = false →
      (contextStep eng a).1 = Except.ok () →
      (run eng slug a).1 = Except.error (RunErr.valueError mutexErrorMsg)) ∧
    (∀ a, truthyStr a.expectation_suite_name = false → truthyList a.batch_kwargs = true →
      truthyList a.assets_to_validate = false → truthyStr a.checkpoint_name = false →
      (contextStep eng a).1 = Except.ok () →
      (run eng slug a).1 = Except.error (RunErr.valueError mutexErrorMsg)) ∧
    (∀ a, truthyList a.batch_kwargs = false → truthyList a.assets_to_validate = false →
      truthyStr a.checkpoint_name = true →
      ∀ m, (run eng slug a).1 ≠ Except.error (RunErr.valueError m)) ∧
    (truthyList (some ([] : List ValidationBatch)) = false ∧
      truthyList (some ([] : BatchKwargs)) = false ∧
      ∀ a, a.assets_to_validate = some [] → a.batch_kwargs = some [] →
        modeCount a
          = modeCount { a with assets_to_validate := none, batch_kwargs := none }) := by
  refine ⟨?_, ?_, ?_, ?_⟩
  · intro a h1 h2 h3 h4 hctx
    have hmode : modeCount a ≠ 1 := by simp [modeCount, h1, h2, h3, h4]
    rw [run_eq_valueError_of_modeCount_ne_one eng slug a hctx hmode]
  · intro a h1 h2 h3 h4 hctx
    have hmode : modeCount a ≠ 1 := by simp [modeCount, h1, h2, h3, h4]
    rw [run_eq_valueError_of_modeCount_ne_one eng slug a hctx hmode]
  · intro a h2 h3 h4 m
    have hmode : modeCount a = 1 := by simp [modeCount, h2, h3, h4]
    exact run_ne_valueError_of_modeCount_eq_one eng slug a hmode m
  · refine ⟨rfl, rfl, ?_⟩
    intro a h1 h2
    simp [modeCount, truthyList, h1, h2]

/-- Witness for C9: a lone expectation_suite_name is rejected. -/
theorem C9_witness :
    (run engOK none argsSuiteOnly).1 = Except.error (RunErr.valueError mutexErrorMsg) :=
  (C9_mode_truthiness engOK none).1 argsSuiteOnly (by decide) (by decide) (by decide)
    (by decide) rfl

/-- C10: with artifact rendering enabled, the artifact is rendered and
published before the success check: when the render calls succeed and the
result reports failure, the create_markdown_artifact side effect is in the
trace even though the invocation terminates with the failure signal. -/
theorem C10_artifact_published_even_on_failure (eng : GEEngine) (slug : Option String)
    (a : RunArgs) (assets : List ValidationBatch) (op : String) (res : VOResult)
    (docs pieces : List String)
    (hdis : a.disable_markdown_artifact = false)
    (hctx : (contextStep eng a).1 = Except.ok ())
    (hmode : modeCount a = 1)
    (hres : (resolveAssets eng a).1 = Except.ok (assets, op))
    (hvo : eng.run_validation_operator op assets
      (if truthyStr a.run_name then a.run_name else slug) a.evaluation_parameters
      = Except.ok res)
    (hr1 : eng.render_validation_operator_result true res = Except.ok docs)
    (hr2 : eng.render_markdown_view docs = Except.ok pieces)
    (hcr : eng.create_markdown_artifact (String.intercalate " " pieces) = Except.ok ())
    (hfail : res.success = false) :
    Event.createdMarkdownArtifact (String.intercalate " " pieces) ∈ (run eng slug a).2 ∧
      (run eng slug a).1 = Except.error (RunErr.failSignal res) := by
  have hart : artifactStep eng a res = (Except.ok (),
      [Event.renderedValidationResult true res, Event.renderedMarkdownView docs,
       Event.createdMarkdownArtifact (String.intercalate " " pieces)]) := by
    simp [artifactStep, hdis, hr1, hr2, hcr]
  have h := run_eq_of_stages eng slug a assets op res hctx hmode hres hvo (by rw [hart])
  rw [h, hart]
  constructor
  · simp [List.mem_append]
  · simp [hfail]

/-- Witness for C10 at a concrete failing engine with rendering enabled. -/
theorem C10_witness :
    Event.createdMarkdownArtifact "docA docB" ∈ (run engFail none argsSB).2 ∧
      (run engFail none argsSB).1 = Except.error (RunErr.failSignal resFail) :=
  C10_artifact_published_even_on_failure engFail none argsSB
    [⟨some [("datasource", "d")], SuiteRef.byName (some "suiteX")⟩]
    "action_list_operator" resFail ["docA", "docB"] ["docA", "docB"]
    rfl rfl (by decide) (by decide) rfl rfl rfl rfl rfl

end GEValidation
